import Mathlib

set_option maxRecDepth 40000

/-!
# Verification of the candidate-evaluation rule engine

This file gives a shallow embedding, in Lean 4, of the scoring and
aggregation logic of the AI candidate-evaluation system:

* the final recommendation combiner (report_generator.py,
  _generate_final_recommendation);
* the per-response interview scoring and the multi-response
  aggregation (interview_scorer.py);
* the skill-gap calculator, the experience-level extraction and the
  hiring-recommendation rules (cv_analyzer.py);
* the analysis entry point's error handling for unreadable inputs.

Python floats are modelled as exact rationals (ℚ), Python strings as
Lean strings, Python sets of strings as finite sets, and Python's
round-to-2-decimals (ties to even) as an explicit rational rounding
function.  Each definition follows the corresponding Python function
line by line.
-/

/-! ## String helpers: Python substring test, lower-casing, title-casing -/

/-- Boolean test that the first character list is an initial segment of
the second (used to implement Python's substring operator). -/
def leads : List Char → List Char → Bool
  | [], _ => true
  | _ :: _, [] => false
  | a :: as, b :: bs => a == b && leads as bs

/-- Boolean test that the first character list occurs contiguously
inside the second. -/
def occursIn (p : List Char) : List Char → Bool
  | [] => leads p []
  | c :: cs => leads p (c :: cs) || occursIn p cs

/-- Python's `pat in s` substring containment. -/
def containsSub (s pat : String) : Bool :=
  occursIn pat.toList s.toList

/-- Python's `str.lower()` (ASCII, which covers every keyword table in
the source). -/
def toLowerStr (s : String) : String :=
  ⟨s.toList.map Char.toLower⟩

/-- Character-level worker for `titleStr`; the boolean records whether
the previous character was alphabetic. -/
def titleChars : Bool → List Char → List Char
  | _, [] => []
  | prevAlpha, c :: cs =>
      let c' := if c.isAlpha then (if prevAlpha then c.toLower else c.toUpper) else c
      c' :: titleChars c.isAlpha cs

/-- Python's `str.title()` (ASCII): the first letter of every
alphabetic run is upper-cased, the rest lower-cased. -/
def titleStr (s : String) : String :=
  ⟨titleChars false s.toList⟩

/-! ## Rounding: Python's `round(x, 2)` on exact values -/

/-- Round a rational to the nearest integer, ties to even
(the rounding mode of Python's built-in `round`). -/
def roundHalfEven (q : ℚ) : ℤ :=
  let f : ℤ := ⌊q⌋
  let r : ℚ := q - f
  if r < 1 / 2 then f
  else if 1 / 2 < r then f + 1
  else if 2 ∣ f then f else f + 1

/-- Python's `round(q, 2)`: round to two decimal places, ties to even. -/
def round2 (q : ℚ) : ℚ :=
  (roundHalfEven (q * 100) : ℚ) / 100

/-! ## Final recommendation combiner

Embedding of `ReportGenerator._generate_final_recommendation`
(report_generator.py): the CV score (0–100 scale) is weighted 40%, the
interview score (0–10 scale) is rescaled by 10 and weighted 60%, and
the weighted sum is thresholded at 85 / 70 / 50. -/

/-- The weighted composite score of
`_generate_final_recommendation`:
`(cv_score * 0.4) + (interview_score * 10 * 0.6)`. -/
def weighted_overall_score (cv_score interview_score : ℚ) : ℚ :=
  cv_score * (4 / 10) + interview_score * 10 * (6 / 10)

/-- Embedding of `ReportGenerator._generate_final_recommendation`
(the non-exceptional path): threshold the weighted score at
85 / 70 / 50. -/
def generate_final_recommendation (cv_score interview_score : ℚ) : String :=
  let overall_score := weighted_overall_score cv_score interview_score
  if overall_score ≥ 85 then "strong_hire"
  else if overall_score ≥ 70 then "hire"
  else if overall_score ≥ 50 then "consider"
  else "reject"

/-! ## Per-response interview scoring

Embedding of `InterviewScorer._fallback_scoring` (interview_scorer.py),
the scoring routine actually used by `score_interview_response`. -/

/-- The fixed keyword list of `_fallback_scoring`'s technical bonus. -/
def technical_keywords : List String :=
  ["python", "java", "database", "api", "algorithm"]

/-- The `overall_score` computed by `_fallback_scoring`: a length-banded
base score (`<50→3, <150→5, <300→7, else 8`), plus, when the question
mentions "technical" or "programming", one point per technical keyword
occurring in the response, capped at 10. -/
def fallback_overall_score (question response : String) : ℕ :=
  let response_length := response.length
  let question_lower := toLowerStr question
  let response_lower := toLowerStr response
  let base : ℕ :=
    if response_length < 50 then 3
    else if response_length < 150 then 5
    else if response_length < 300 then 7
    else 8
  if containsSub question_lower "technical" || containsSub question_lower "programming" then
    let keyword_matches := (technical_keywords.filter fun k => containsSub response_lower k).length
    min 10 (base + keyword_matches)
  else base

/-- The `recommendation` field of `_fallback_scoring`:
`"consider"` when the overall score is at least 6, else `"reject"`. -/
def fallback_recommendation (question response : String) : String :=
  if fallback_overall_score question response ≥ 6 then "consider" else "reject"

/-! ## Multi-response aggregation

Embedding of `InterviewScorer.score_multiple_responses` together with
its helpers `_calculate_overall_assessment`,
`_calculate_consistency_score` and
`_determine_interview_recommendation` (interview_scorer.py).  Only the
fields some claim is about are carried (`top_strengths` /
`top_weaknesses`, which with fallback scoring are constant lists, are
omitted). -/

/-- One submitted question/response pair. -/
structure QA where
  question : String
  response : String
deriving DecidableEq

/-- A pair survives the `if not question or not response: continue`
filter exactly when both strings are nonempty. -/
def validQA (qa : QA) : Bool :=
  qa.question ≠ "" && qa.response ≠ ""

/-- Python's `statistics.variance`: the sample variance (denominator
`n - 1`), computed exactly. -/
def sampleVariance (scores : List ℚ) : ℚ :=
  let n : ℚ := scores.length
  let mean := scores.sum / n
  ((scores.map fun s => (s - mean) ^ 2).sum) / (n - 1)

/-- Embedding of `_calculate_consistency_score`: 100 with fewer than
two scores, otherwise `max(0, 100 - variance*10)` rounded to two
decimals. -/
def calculate_consistency_score (scores : List ℚ) : ℚ :=
  if scores.length < 2 then 100
  else round2 (max 0 (100 - sampleVariance scores * 10))

/-- Embedding of `_determine_interview_recommendation`. -/
def determine_interview_recommendation (average_score : ℚ) : String :=
  if average_score ≥ 85 / 10 then "strong_hire"
  else if average_score ≥ 7 then "hire"
  else if average_score ≥ 55 / 10 then "consider"
  else "reject"

/-- The aggregate record returned by `_calculate_overall_assessment`.
When no questions were submitted the Python dict carries only
`overall_score` and `performance_level`; the remaining keys are
therefore optional here. -/
structure InterviewAssessment where
  overall_score : ℚ
  performance_level : String
  total_questions : Option ℕ
  consistency_score : Option ℚ
  recommendation : Option String
deriving DecidableEq

/-- Embedding of `_calculate_overall_assessment`: note that
`num_questions` is the caller's `len(questions_responses)`, i.e. the
count of all submitted pairs. -/
def calculate_overall_assessment (individual_scores : List ℚ)
    (total_score : ℚ) (num_questions : ℕ) : InterviewAssessment :=
  if num_questions = 0 then
    ⟨0, "poor", none, none, none⟩
  else
    let average_score := total_score / (num_questions : ℚ)
    let performance_level :=
      if average_score ≥ 85 / 10 then "excellent"
      else if average_score ≥ 7 then "good"
      else if average_score ≥ 55 / 10 then "fair"
      else "poor"
    ⟨round2 average_score, performance_level, some num_questions,
      some (calculate_consistency_score individual_scores),
      some (determine_interview_recommendation average_score)⟩

/-- Embedding of the aggregation loop of `score_multiple_responses`:
empty pairs are skipped, the rest are scored by `_fallback_scoring`,
and the overall assessment is computed from the valid scores, their sum
and the length of the *whole* input list. -/
def score_multiple_responses (questions_responses : List QA) : InterviewAssessment :=
  let valid := questions_responses.filter validQA
  let individual_scores :=
    valid.map fun qa => (fallback_overall_score qa.question qa.response : ℚ)
  let total_score := individual_scores.sum
  calculate_overall_assessment individual_scores total_score questions_responses.length

/-! ## Skill/requirement extraction

Embedding of `CVAnalyzer._fallback_skill_extraction` and
`CVAnalyzer._fallback_requirement_extraction` (cv_analyzer.py), the
extraction routines actually used by `_extract_cv_skills` and
`_extract_job_requirements`. -/

/-- The profile built from a CV text (`soft_skills` is always left
empty by the source). -/
structure CvSkills where
  technical_skills : List (String × List String)
  soft_skills : List String
  experience_level : String
  years_experience : String
deriving DecidableEq

/-- The profile built from a job-description text.  The
`education_requirements` entry is omitted: no claim concerns it. -/
structure JobRequirements where
  required_technical_skills : List (String × List String)
  required_soft_skills : List String
  years_experience : String
  experience_level : String
deriving DecidableEq

/-- The fixed keyword table of `_fallback_skill_extraction`. -/
def common_skills : List (String × List String) :=
  [("programming_languages",
      ["python", "java", "javascript", "c++", "c#", "php", "ruby", "go", "rust"]),
   ("frameworks",
      ["django", "flask", "react", "angular", "vue", "spring", "node.js", "express"]),
   ("databases",
      ["mysql", "postgresql", "mongodb", "redis", "sqlite", "oracle"]),
   ("tools",
      ["git", "docker", "kubernetes", "jenkins", "jira", "confluence", "aws", "azure", "gcp"])]

/-- Embedding of `_fallback_skill_extraction`: keyword-table matching
(appending title-cased canonical names) followed by the
junior → senior → mid-level experience-level scan. -/
def fallback_skill_extraction (cv_text : String) : CvSkills :=
  let cv_lower := toLowerStr cv_text
  let technical := common_skills.map fun cat =>
    (cat.1, (cat.2.filter fun skill => containsSub cv_lower skill).map titleStr)
  let level_years : String × String :=
    if ["junior", "entry", "graduate", "intern"].any (fun w => containsSub cv_lower w) then
      ("junior", "1-2")
    else if ["senior", "lead", "architect", "principal"].any (fun w => containsSub cv_lower w) then
      ("senior", "5+")
    else if ["mid", "intermediate", "3", "4", "5"].any (fun w => containsSub cv_lower w) then
      ("mid-level", "3-5")
    else ("unknown", "unknown")
  ⟨technical, [], level_years.1, level_years.2⟩

/-- Embedding of `_fallback_requirement_extraction`: hard-coded keyword
checks for the skill table, then the senior → junior → mid-level
experience scan. -/
def fallback_requirement_extraction (job_description : String) : JobRequirements :=
  let job_lower := toLowerStr job_description
  let programming_languages :=
    (if containsSub job_lower "python" then ["python"] else []) ++
    (if containsSub job_lower "java" then ["java"] else []) ++
    (if containsSub job_lower "javascript" then ["javascript"] else [])
  let frameworks :=
    (if containsSub job_lower "django" || containsSub job_lower "flask"
       then ["django/flask"] else []) ++
    (if containsSub job_lower "spring" then ["spring"] else [])
  let cloud_platforms :=
    if containsSub job_lower "aws" || containsSub job_lower "azure" ||
       containsSub job_lower "gcp" then ["cloud platforms"] else []
  let tools :=
    (if containsSub job_lower "docker" then ["docker"] else []) ++
    (if containsSub job_lower "kubernetes" then ["kubernetes"] else []) ++
    (if containsSub job_lower "ci/cd" || containsSub job_lower "jenkins"
       then ["ci/cd"] else [])
  let architecture :=
    (if containsSub job_lower "microservices" then ["microservices"] else []) ++
    (if containsSub job_lower "system design" then ["system design"] else [])
  let level_years : String × String :=
    if ["senior", "lead", "architect", "principal", "5+", "6+", "7+", "8+", "9+", "10+"].any
         (fun w => containsSub job_lower w) then ("senior", "5+")
    else if ["junior", "entry", "graduate", "intern", "1-3", "0-2"].any
         (fun w => containsSub job_lower w) then ("junior", "1-3")
    else if ["mid", "intermediate", "3-5", "4-6"].any
         (fun w => containsSub job_lower w) then ("mid-level", "3-5")
    else ("unknown", "unknown")
  ⟨[("programming_languages", programming_languages),
    ("frameworks", frameworks),
    ("databases", []),
    ("tools", tools),
    ("cloud_platforms", cloud_platforms),
    ("architecture", architecture)],
   [], level_years.2, level_years.1⟩

/-! ## Gap calculator

Embedding of `CVAnalyzer._calculate_skill_gaps`. -/

/-- Flatten a category table into the set of lower-cased skill names,
as the two `set(...).update([skill.lower() ...])` loops do. -/
def flattenSkills (table : List (String × List String)) : Finset String :=
  (table.flatMap fun cat => cat.2.map toLowerStr).toFinset

/-- The result record of `_calculate_skill_gaps` (the fields no claim
concerns — `missing_soft_skills`, `missing_tools`, `education_gap` —
are constant in the source and are omitted). -/
structure SkillGaps where
  missing_technical_skills : Finset String
  experience_gap : Option String
  gap_score : ℚ
  overqualification_risk : String
  retention_risk : String
  risk_factors : List String
deriving DecidableEq

/-- Embedding of `_calculate_skill_gaps`: missing-skill set difference,
experience-gap classification, gap score with the ±30/−20 experience
adjustment (applied only when the required set is nonempty) clamped to
[0, 100], and the risk tagging. -/
def calculate_skill_gaps (cv_skills : CvSkills) (job_requirements : JobRequirements) :
    SkillGaps :=
  let cv_all_skills := flattenSkills cv_skills.technical_skills
  let job_all_skills := flattenSkills job_requirements.required_technical_skills
  let missing := job_all_skills \ cv_all_skills
  let cv_exp := cv_skills.experience_level
  let job_exp := job_requirements.experience_level
  let experience_gap : Option String :=
    if cv_exp ≠ "unknown" ∧ job_exp ≠ "unknown" then
      if cv_exp = "junior" ∧ job_exp = "senior" then some "junior_applying_for_senior"
      else if cv_exp = "senior" ∧ job_exp = "junior" then some "senior_applying_for_junior"
      else none
    else none
  let total_required := job_all_skills.card
  let missing_count := missing.card
  let gap_score : ℚ :=
    if 0 < total_required then
      let base_gap_score := ((missing_count : ℚ) / (total_required : ℚ)) * 100
      let adjusted :=
        if experience_gap = some "junior_applying_for_senior" then base_gap_score + 30
        else if experience_gap = some "senior_applying_for_junior" then base_gap_score - 20
        else base_gap_score
      max 0 (min 100 adjusted)
    else 0
  let risks : String × String × List String :=
    if experience_gap = some "senior_applying_for_junior" then
      ("high", "high",
        ["Candidate may feel underutilized",
         "Higher salary expectations",
         "May leave for better opportunities",
         "Could be bored with junior-level tasks"])
    else if experience_gap = some "junior_applying_for_senior" then
      ("low", "low",
        ["Candidate may struggle with senior responsibilities",
         "Learning curve could be steep",
         "May need additional training and support"])
    else ("medium", "medium", ["Standard risk assessment"])
  ⟨missing, experience_gap, gap_score, risks.1, risks.2.1, risks.2.2⟩

/-- Embedding of `CVAnalyzer._determine_risk_level`. -/
def determine_risk_level (overall_score : ℚ) (skill_gaps : SkillGaps) : String :=
  if skill_gaps.overqualification_risk = "high" then "high"
  else if overall_score ≥ 80 then "low"
  else if overall_score ≥ 60 then "medium"
  else "high"

/-- Embedding of `CVAnalyzer._determine_hiring_recommendation`. -/
def determine_hiring_recommendation (overall_score : ℚ) (skill_gaps : SkillGaps) : String :=
  if skill_gaps.overqualification_risk = "high" then "consider_with_caution"
  else if overall_score ≥ 85 ∧ skill_gaps.gap_score < 20 then "strong_hire"
  else if overall_score ≥ 70 then "hire"
  else if overall_score ≥ 50 then "consider"
  else "reject"

/-! ## Overall CV assessment and the analysis entry point

Embedding of `CVAnalyzer._generate_overall_assessment` (the score /
risk / recommendation part the claims concern),
`CVAnalyzer._perform_llm_analysis` (a hard-coded record in the source)
and `CVAnalyzer.analyze_cv_against_job`. -/

/-- The part of the model-analysis record the score aggregation reads:
`overall_score` when the key is present, and the `experience_score`
(already defaulted to 50 by `.get`) when `experience_assessment` is
present. -/
structure LlmAnalysis where
  overall_score : Option ℚ
  experience_score : Option ℚ
deriving DecidableEq

/-- Embedding of `_perform_llm_analysis`: a hard-coded record with
`overall_score = 75` and `experience_score = 85`. -/
def perform_llm_analysis : LlmAnalysis :=
  ⟨some 75, some 85⟩

/-- The score / risk / recommendation part of the overall-assessment
record (strength, weakness and recommendation lists carry no claim). -/
structure CvAssessment where
  overall_score : ℚ
  risk_level : String
  hiring_recommendation : String
deriving DecidableEq

/-- Embedding of the scoring part of `_generate_overall_assessment`:
collect the available component scores, fall back to the adjusted
`100 - gap_score` heuristic when fewer than two are available, average,
then derive risk level and hiring recommendation. -/
def generate_overall_assessment (cv_skills : CvSkills)
    (job_requirements : JobRequirements) (skill_gaps : SkillGaps)
    (llm_analysis : LlmAnalysis) : CvAssessment :=
  let scores : List ℚ :=
    (match llm_analysis.overall_score with
     | some s => if s > 0 then [s] else []
     | none => []) ++
    [100 - skill_gaps.gap_score] ++
    (match llm_analysis.experience_score with
     | some e => [e]
     | none => [])
  let scores :=
    if scores.length < 2 then
      let gap_percentage := skill_gaps.gap_score
      let base_score := 100 - gap_percentage
      let cv_exp := toLowerStr cv_skills.years_experience
      let job_exp := toLowerStr job_requirements.years_experience
      let base_score :=
        if containsSub cv_exp "junior" && containsSub job_exp "senior" then base_score - 30
        else if containsSub cv_exp "senior" && containsSub job_exp "junior" then base_score + 10
        else base_score
      [base_score]
    else scores
  let overall_score := scores.sum / (scores.length : ℚ)
  ⟨overall_score,
   determine_risk_level overall_score skill_gaps,
   determine_hiring_recommendation overall_score skill_gaps⟩

/-- The record assembled by `_perform_comprehensive_analysis`. -/
structure ComprehensiveAnalysis where
  cv_skills : CvSkills
  job_requirements : JobRequirements
  skill_gaps : SkillGaps
  overall_assessment : CvAssessment
deriving DecidableEq

/-- Embedding of `_perform_comprehensive_analysis`. -/
def perform_comprehensive_analysis (cv_text job_description : String) :
    ComprehensiveAnalysis :=
  let cv_skills := fallback_skill_extraction cv_text
  let job_requirements := fallback_requirement_extraction job_description
  let llm_analysis := perform_llm_analysis
  let skill_gaps := calculate_skill_gaps cv_skills job_requirements
  ⟨cv_skills, job_requirements, skill_gaps,
   generate_overall_assessment cv_skills job_requirements skill_gaps llm_analysis⟩

/-- Outcome of `analyze_cv_against_job`: either the error record
`{"error": msg}` or an analysis record. -/
inductive AnalyzeResult where
  | error (msg : String) : AnalyzeResult
  | ok (analysis : ComprehensiveAnalysis) : AnalyzeResult
deriving DecidableEq

/-- Embedding of `analyze_cv_against_job`, taking the two texts the
file reader produced (the reader returns the empty string for a
missing or unreadable file): `if not cv_text or not job_description`
yields the error record, otherwise the comprehensive analysis runs. -/
def analyze_cv_against_job (cv_text job_description : String) : AnalyzeResult :=
  if cv_text = "" ∨ job_description = "" then
    AnalyzeResult.error "Failed to read input files"
  else
    AnalyzeResult.ok (perform_comprehensive_analysis cv_text job_description)

/-- Evaluation helper: rounding an integer rational changes nothing. -/
theorem roundHalfEven_intCast (n : ℤ) : roundHalfEven (n : ℚ) = n := by
  unfold roundHalfEven
  norm_num

/-- Evaluation helper: `round2 q` for a `q` whose hundredfold is the
integer `n` equals `n / 100` (no rounding happens). -/
theorem round2_eq_of_mul_hundred (q : ℚ) (n : ℤ) (h : q * 100 = (n : ℚ)) :
    round2 q = (n : ℚ) / 100 := by
  unfold round2
  rw [h, roundHalfEven_intCast]

/-! ## Claim theorems -/

/-- C1: for CV scores in [0, 100] and interview scores in [0, 10], the
final recommendation combiner computes
`weighted = cv*0.4 + interview*10*0.6` and thresholds it at
≥85 strong_hire / ≥70 hire / ≥50 consider / else reject; in particular
cv = 90 with interview = 8 gives weighted 84 and category "hire". -/
theorem final_recommendation_weighted_thresholds
    (cv_score interview_score : ℚ)
    (hcv0 : 0 ≤ cv_score) (hcv1 : cv_score ≤ 100)
    (hiv0 : 0 ≤ interview_score) (hiv1 : interview_score ≤ 10) :
    weighted_overall_score cv_score interview_score =
      cv_score * (4 / 10) + interview_score * 10 * (6 / 10) ∧
    generate_final_recommendation cv_score interview_score =
      (if weighted_overall_score cv_score interview_score ≥ 85 then "strong_hire"
       else if weighted_overall_score cv_score interview_score ≥ 70 then "hire"
       else if weighted_overall_score cv_score interview_score ≥ 50 then "consider"
       else "reject") ∧
    weighted_overall_score 90 8 = 84 ∧
    generate_final_recommendation 90 8 = "hire" := by
  refine ⟨rfl, rfl, by unfold weighted_overall_score; norm_num, ?_⟩
  unfold generate_final_recommendation weighted_overall_score
  norm_num

/-- C1 witness: the theorem applied at the boundary scenario
cv = 90, interview = 8. -/
theorem final_recommendation_weighted_thresholds_witness :
    generate_final_recommendation 90 8 = "hire" :=
  (final_recommendation_weighted_thresholds 90 8 (by norm_num) (by norm_num)
    (by norm_num) (by norm_num)).2.2.2

/-- C7 reference formula, stated from the spec's words: length-banded
base score, plus one point per matched keyword when the question
mentions "technical" or "programming", capped at 10. -/
def spec_response_score (question response : String) : ℕ :=
  let base : ℕ :=
    if response.length < 50 then 3
    else if response.length < 150 then 5
    else if response.length < 300 then 7
    else 8
  if containsSub (toLowerStr question) "technical" ||
     containsSub (toLowerStr question) "programming" then
    min 10 (base + technical_keywords.countP fun k => containsSub (toLowerStr response) k)
  else base

/-- C7 scenario question: contains "technical". -/
def scenario_question : String := "Here is a technical question about your stack"

/-- C7 scenario response: 400 characters, containing "python" and
"api" and no other scored keyword. -/
def scenario_response : String :=
  ⟨"python api ".toList ++ List.replicate 389 'x'⟩

/-- C7: per-response scoring equals the length-banded base plus the
capped technical keyword bonus, the recommendation is "consider"
exactly when the overall score is at least 6, and the 400-character
scenario response containing "python" and "api" to a "technical"
question scores 10 with recommendation "consider". -/
theorem fallback_scoring_bands_bonus_recommendation :
    (∀ question response : String,
       fallback_overall_score question response = spec_response_score question response) ∧
    (∀ question response : String,
       fallback_recommendation question response =
         if 6 ≤ fallback_overall_score question response then "consider" else "reject") ∧
    scenario_response.length = 400 ∧
    containsSub (toLowerStr scenario_response) "python" = true ∧
    containsSub (toLowerStr scenario_response) "api" = true ∧
    fallback_overall_score scenario_question scenario_response = 10 ∧
    fallback_recommendation scenario_question scenario_response = "consider" := by
  refine ⟨?_, ?_, by decide, by decide, by decide, by decide, by decide⟩
  · intro question response
    unfold fallback_overall_score spec_response_score
    simp [List.countP_eq_length_filter]
  · intro question response
    unfold fallback_recommendation
    rfl

/-- C10: for every question and response (the empty response included)
the per-response overall score is an integer between 3 and 10: the
smallest length band already gives 3 and the keyword bonus only adds,
so the declared bottom of the 1–10 range is unreachable. -/
theorem fallback_overall_score_between_three_and_ten
    (question response : String) :
    3 ≤ fallback_overall_score question response ∧
    fallback_overall_score question response ≤ 10 := by
  unfold fallback_overall_score
  dsimp only
  split_ifs <;> omega

/-- C9: whenever either input file read produced empty text, the
analysis entry point returns the error record
"Failed to read input files" and no assessment. -/
theorem analyze_empty_input_yields_error
    (cv_text job_description : String)
    (h : cv_text = "" ∨ job_description = "") :
    analyze_cv_against_job cv_text job_description =
      AnalyzeResult.error "Failed to read input files" ∧
    ∀ analysis, analyze_cv_against_job cv_text job_description ≠ AnalyzeResult.ok analysis := by
  unfold analyze_cv_against_job
  rw [if_pos h]
  exact ⟨rfl, fun _ h => AnalyzeResult.noConfusion h⟩

/-- C9 witness: an unreadable CV file (empty text) against a readable
job description yields the error record. -/
theorem analyze_empty_input_yields_error_witness :
    analyze_cv_against_job "" "Senior Python developer wanted" =
      AnalyzeResult.error "Failed to read input files" :=
  (analyze_empty_input_yields_error "" "Senior Python developer wanted" (Or.inl rfl)).1

/-- C2 claim-side aggregate score, stated from the spec's words: the
mean of the individual scores of the non-skipped pairs, rounded to two
decimals, and 0 when no valid pair exists. -/
def claimC2_overall_score (qrs : List QA) : ℚ :=
  let valid := qrs.filter validQA
  let scores := valid.map fun qa => (fallback_overall_score qa.question qa.response : ℚ)
  if valid.length = 0 then 0 else round2 (scores.sum / (valid.length : ℚ))

/-- C2 counterexample input: one valid pair (scoring 3) and one empty
pair that the loop skips. -/
def mixed_pairs : List QA :=
  [⟨"Tell me about yourself", "I am a developer"⟩, ⟨"", ""⟩]

/-- C2 counterexample: with one valid pair of score 3 and one skipped
empty pair, the code divides by the total number of submitted pairs
and returns 1.5, not the mean 3 of the non-skipped scores the claim
asserts. -/
theorem multi_response_mean_counterexample :
    (score_multiple_responses mixed_pairs).overall_score = 3 / 2 ∧
    claimC2_overall_score mixed_pairs = 3 ∧
    (score_multiple_responses mixed_pairs).overall_score ≠ claimC2_overall_score mixed_pairs := by
  have hfilter : mixed_pairs.filter validQA =
      [⟨"Tell me about yourself", "I am a developer"⟩] := by decide
  have hscore : fallback_overall_score "Tell me about yourself" "I am a developer" = 3 := by
    decide
  have hlen : mixed_pairs.length = 2 := by decide
  have h1 : (score_multiple_responses mixed_pairs).overall_score = 3 / 2 := by
    unfold score_multiple_responses
    rw [hfilter, hlen]
    unfold calculate_overall_assessment
    simp only [List.map_cons, List.map_nil, hscore, List.sum_cons, List.sum_nil]
    norm_num
    rw [round2_eq_of_mul_hundred _ 150 (by norm_num)]
    norm_num
  have h2 : claimC2_overall_score mixed_pairs = 3 := by
    unfold claimC2_overall_score
    rw [hfilter]
    simp only [List.map_cons, List.map_nil, hscore, List.sum_cons, List.sum_nil, List.length_cons,
      List.length_nil]
    norm_num
    rw [round2_eq_of_mul_hundred _ 300 (by norm_num)]
    norm_num
  exact ⟨h1, h2, by rw [h1, h2]; norm_num⟩

/-- C2 amended: aggregation skips empty pairs, but the overall score is
the sum of the valid pairs' scores divided by the count of all
submitted pairs (skipped pairs included in the denominator), rounded
to two decimals; it is 0 when the input list is empty, and also 0 when
no valid pair exists. -/
theorem multi_response_mean_over_submitted_pairs (qrs : List QA) :
    (score_multiple_responses qrs).overall_score =
      (if qrs.length = 0 then 0
       else round2 (((qrs.filter validQA).map fun qa =>
           (fallback_overall_score qa.question qa.response : ℚ)).sum / (qrs.length : ℚ))) ∧
    (qrs.filter validQA = [] → (score_multiple_responses qrs).overall_score = 0) := by
  constructor
  · unfold score_multiple_responses calculate_overall_assessment
    split_ifs <;> rfl
  · intro hempty
    unfold score_multiple_responses calculate_overall_assessment
    rw [hempty]
    split_ifs with h
    · rfl
    · simp only [List.map_nil, List.sum_nil]
      rw [zero_div, round2_eq_of_mul_hundred _ 0 (by norm_num)]
      norm_num

/-- C2 amended witness: a single skipped pair yields overall score 0. -/
theorem multi_response_mean_over_submitted_pairs_witness :
    (score_multiple_responses [⟨"", ""⟩]).overall_score = 0 :=
  (multi_response_mean_over_submitted_pairs [⟨"", ""⟩]).2 (by decide)

/-- C8 claim-side consistency formula, stated from the spec's words:
`max(0, 100 - variance*10)` with no rounding, 100 below two scores. -/
def claimC8_consistency (scores : List ℚ) : ℚ :=
  if scores.length < 2 then 100 else max 0 (100 - sampleVariance scores * 10)

/-- Evaluation helper: the sample variance of [3, 3, 4]. -/
theorem sampleVariance_three_three_four : sampleVariance [3, 3, 4] = 1 / 3 := by
  unfold sampleVariance
  norm_num

/-- C8 counterexample: on scores [3, 3, 4] the code rounds the
consistency to two decimals (96.67), so it differs from the claim's
exact `max(0, 100 - variance*10)` = 290/3. -/
theorem consistency_rounding_counterexample :
    calculate_consistency_score [3, 3, 4] = 9667 / 100 ∧
    claimC8_consistency [3, 3, 4] = 290 / 3 ∧
    calculate_consistency_score [3, 3, 4] ≠ claimC8_consistency [3, 3, 4] := by
  have hmax : max (0:ℚ) (100 - sampleVariance [3, 3, 4] * 10) = 290 / 3 := by
    rw [sampleVariance_three_three_four]; norm_num
  have h1 : calculate_consistency_score [3, 3, 4] = 9667 / 100 := by
    unfold calculate_consistency_score
    rw [if_neg (by norm_num), hmax]
    unfold round2 roundHalfEven
    have hf : ⌊((290:ℚ) / 3 * 100)⌋ = 9666 := by
      rw [Int.floor_eq_iff]
      constructor <;> norm_num
    rw [hf]
    norm_num
  have h2 : claimC8_consistency [3, 3, 4] = 290 / 3 := by
    unfold claimC8_consistency
    rw [if_neg (by norm_num), hmax]
  exact ⟨h1, h2, by rw [h1, h2]; norm_num⟩

/-- C8 amended: the consistency score is
`max(0, 100 - sample variance * 10)` rounded to two decimals, and 100
when fewer than two scores exist; scores [9, 9, 9] give exactly 100
and scores [2, 9, 10] give a value that is below 100 and at least 0. -/
theorem consistency_formula_and_scenarios :
    (∀ scores : List ℚ, calculate_consistency_score scores =
        if scores.length < 2 then 100
        else round2 (max 0 (100 - sampleVariance scores * 10))) ∧
    calculate_consistency_score [9, 9, 9] = 100 ∧
    calculate_consistency_score [2, 9, 10] < 100 ∧
    0 ≤ calculate_consistency_score [2, 9, 10] := by
  have hv9 : sampleVariance [9, 9, 9] = 0 := by
    unfold sampleVariance; norm_num
  have hv2 : sampleVariance [2, 9, 10] = 19 := by
    unfold sampleVariance; norm_num
  have h9 : calculate_consistency_score [9, 9, 9] = 100 := by
    unfold calculate_consistency_score
    rw [if_neg (by norm_num), hv9]
    norm_num
    rw [round2_eq_of_mul_hundred _ 10000 (by norm_num)]
    norm_num
  have h2 : calculate_consistency_score [2, 9, 10] = 0 := by
    unfold calculate_consistency_score
    rw [if_neg (by norm_num), hv2]
    norm_num
    rw [round2_eq_of_mul_hundred _ 0 (by norm_num)]
    norm_num
  exact ⟨fun _ => rfl, h9, by rw [h2]; norm_num, by rw [h2]⟩

/-- Characterization of the `experience_gap` field of
`_calculate_skill_gaps` (definitional). -/
theorem experience_gap_eq (cv_skills : CvSkills) (job_requirements : JobRequirements) :
    (calculate_skill_gaps cv_skills job_requirements).experience_gap =
      (if cv_skills.experience_level ≠ "unknown" ∧ job_requirements.experience_level ≠ "unknown" then
        if cv_skills.experience_level = "junior" ∧ job_requirements.experience_level = "senior" then
          some "junior_applying_for_senior"
        else if cv_skills.experience_level = "senior" ∧ job_requirements.experience_level = "junior" then
          some "senior_applying_for_junior"
        else none
       else none) := rfl

/-- Characterization of the `gap_score` field of
`_calculate_skill_gaps` (definitional). -/
theorem gap_score_eq (cv_skills : CvSkills) (job_requirements : JobRequirements) :
    (calculate_skill_gaps cv_skills job_requirements).gap_score =
      (if 0 < (flattenSkills job_requirements.required_technical_skills).card then
        max 0 (min 100 (
          if (calculate_skill_gaps cv_skills job_requirements).experience_gap =
              some "junior_applying_for_senior" then
            (((flattenSkills job_requirements.required_technical_skills \
                flattenSkills cv_skills.technical_skills).card : ℚ) /
              ((flattenSkills job_requirements.required_technical_skills).card : ℚ)) * 100 + 30
          else if (calculate_skill_gaps cv_skills job_requirements).experience_gap =
              some "senior_applying_for_junior" then
            (((flattenSkills job_requirements.required_technical_skills \
                flattenSkills cv_skills.technical_skills).card : ℚ) /
              ((flattenSkills job_requirements.required_technical_skills).card : ℚ)) * 100 - 20
          else
            (((flattenSkills job_requirements.required_technical_skills \
                flattenSkills cv_skills.technical_skills).card : ℚ) /
              ((flattenSkills job_requirements.required_technical_skills).card : ℚ)) * 100))
       else 0) := rfl

/-- Characterization of the `overqualification_risk` field of
`_calculate_skill_gaps`. -/
theorem overqualification_risk_eq (cv_skills : CvSkills) (job_requirements : JobRequirements) :
    (calculate_skill_gaps cv_skills job_requirements).overqualification_risk =
      (if (calculate_skill_gaps cv_skills job_requirements).experience_gap =
          some "senior_applying_for_junior" then "high"
       else if (calculate_skill_gaps cv_skills job_requirements).experience_gap =
          some "junior_applying_for_senior" then "low"
       else "medium") := by
  unfold calculate_skill_gaps
  dsimp only
  split_ifs <;> simp_all

/-- C3: the gap score always lies in [0, 100], and it is exactly 0
when the flattened required-skill set is empty (the division is
guarded, so no division by zero occurs). -/
theorem gap_score_clamped_and_zero_on_empty_required
    (cv_skills : CvSkills) (job_requirements : JobRequirements) :
    (0 ≤ (calculate_skill_gaps cv_skills job_requirements).gap_score ∧
      (calculate_skill_gaps cv_skills job_requirements).gap_score ≤ 100) ∧
    (flattenSkills job_requirements.required_technical_skills = ∅ →
      (calculate_skill_gaps cv_skills job_requirements).gap_score = 0) := by
  constructor
  · rw [gap_score_eq]
    by_cases h : 0 < (flattenSkills job_requirements.required_technical_skills).card
    · rw [if_pos h]
      exact ⟨le_max_left _ _, max_le (by norm_num) (min_le_left _ _)⟩
    · rw [if_neg h]
      norm_num
  · intro hempty
    rw [gap_score_eq, hempty]
    norm_num

/-- C3 helper input: a CV profile with no recognized skills. -/
def cvJunior : CvSkills := ⟨[], [], "junior", "1-2"⟩

/-- C3 helper input: a senior job with no recognized required skills. -/
def jobSenior : JobRequirements := ⟨[], [], "5+", "senior"⟩

/-- C3 witness: the theorem applied to an empty required-skill set. -/
theorem gap_score_clamped_and_zero_on_empty_required_witness :
    (0 ≤ (calculate_skill_gaps cvJunior jobSenior).gap_score ∧
      (calculate_skill_gaps cvJunior jobSenior).gap_score ≤ 100) ∧
    (calculate_skill_gaps cvJunior jobSenior).gap_score = 0 :=
  ⟨(gap_score_clamped_and_zero_on_empty_required cvJunior jobSenior).1,
   (gap_score_clamped_and_zero_on_empty_required cvJunior jobSenior).2 (by decide)⟩

/-- C4 claim-side experience-gap classification, stated from the
spec's words (no explicit gating on "unknown", which the proof shows
is redundant). -/
def claim_experience_gap (cv_level job_level : String) : Option String :=
  if cv_level = "junior" ∧ job_level = "senior" then some "junior_applying_for_senior"
  else if cv_level = "senior" ∧ job_level = "junior" then some "senior_applying_for_junior"
  else none

/-- C4 claim-side gap score, stated literally from the claim: the base
score (0 when no skills are required) plus the ±30/−20 adjustment,
clamped — the adjustment applied unconditionally. -/
def claimC4_gap_score (cv_skills : CvSkills) (job_requirements : JobRequirements) : ℚ :=
  let required := flattenSkills job_requirements.required_technical_skills
  let missing := required \ flattenSkills cv_skills.technical_skills
  let base : ℚ :=
    if 0 < required.card then ((missing.card : ℚ) / (required.card : ℚ)) * 100 else 0
  let adjusted :=
    if claim_experience_gap cv_skills.experience_level job_requirements.experience_level =
        some "junior_applying_for_senior" then base + 30
    else if claim_experience_gap cv_skills.experience_level job_requirements.experience_level =
        some "senior_applying_for_junior" then base - 20
    else base
  max 0 (min 100 adjusted)

/-- C4 amended gap score: identical to the claim's formula except that
the experience adjustment is only applied when the required-skill set
is nonempty; with an empty required set the score is 0 outright. -/
def amendedC4_gap_score (cv_skills : CvSkills) (job_requirements : JobRequirements) : ℚ :=
  let required := flattenSkills job_requirements.required_technical_skills
  let missing := required \ flattenSkills cv_skills.technical_skills
  if 0 < required.card then
    let base : ℚ := ((missing.card : ℚ) / (required.card : ℚ)) * 100
    let adjusted :=
      if claim_experience_gap cv_skills.experience_level job_requirements.experience_level =
          some "junior_applying_for_senior" then base + 30
      else if claim_experience_gap cv_skills.experience_level job_requirements.experience_level =
          some "senior_applying_for_junior" then base - 20
      else base
    max 0 (min 100 adjusted)
  else 0

/-- C4 counterexample: a junior candidate applying for a senior job
that lists no recognizable required skills.  The claim's formula gives
clamp(0 + 30) = 30, but the code skips the adjustment when the
required set is empty and returns 0. -/
theorem gap_adjustment_empty_required_counterexample :
    (calculate_skill_gaps cvJunior jobSenior).experience_gap =
      some "junior_applying_for_senior" ∧
    (calculate_skill_gaps cvJunior jobSenior).gap_score = 0 ∧
    claimC4_gap_score cvJunior jobSenior = 30 ∧
    (calculate_skill_gaps cvJunior jobSenior).gap_score ≠ claimC4_gap_score cvJunior jobSenior := by
  have hgap : (calculate_skill_gaps cvJunior jobSenior).experience_gap =
      some "junior_applying_for_senior" := by
    rw [experience_gap_eq]
    simp [cvJunior, jobSenior]
  have h1 : (calculate_skill_gaps cvJunior jobSenior).gap_score = 0 := by
    rw [gap_score_eq]
    simp [jobSenior, flattenSkills]
  have h2 : claimC4_gap_score cvJunior jobSenior = 30 := by
    unfold claimC4_gap_score claim_experience_gap
    norm_num [cvJunior, jobSenior, flattenSkills]
  exact ⟨hgap, h1, h2, by rw [h1, h2]; norm_num⟩

/-- C4 amended: the experience-gap classification is exactly the
junior-for-senior / senior-for-junior / none case split, and the gap
score is the clamped adjusted base score, with the adjustment applied
only when the required set is nonempty (an empty required set yields 0
with no adjustment). -/
theorem gap_classification_and_adjusted_score
    (cv_skills : CvSkills) (job_requirements : JobRequirements) :
    (calculate_skill_gaps cv_skills job_requirements).experience_gap =
      claim_experience_gap cv_skills.experience_level job_requirements.experience_level ∧
    (calculate_skill_gaps cv_skills job_requirements).gap_score =
      amendedC4_gap_score cv_skills job_requirements := by
  have hgap : (calculate_skill_gaps cv_skills job_requirements).experience_gap =
      claim_experience_gap cv_skills.experience_level job_requirements.experience_level := by
    rw [experience_gap_eq]
    unfold claim_experience_gap
    split_ifs <;> simp_all
  refine ⟨hgap, ?_⟩
  rw [gap_score_eq, hgap]
  unfold amendedC4_gap_score
  rfl

/-- C5: whenever the candidate level is senior, the job level is
junior, and no required skill is missing, the gap calculator reports
the senior-for-junior gap, a gap score of 0 (the −20 adjustment is
clamped at 0), high overqualification risk, and the hiring
recommendation is "consider_with_caution" for every numeric overall
score. -/
theorem senior_for_junior_forces_caution
    (cv_skills : CvSkills) (job_requirements : JobRequirements)
    (hcv : cv_skills.experience_level = "senior")
    (hjob : job_requirements.experience_level = "junior")
    (hmissing : flattenSkills job_requirements.required_technical_skills \
        flattenSkills cv_skills.technical_skills = ∅) :
    (calculate_skill_gaps cv_skills job_requirements).experience_gap =
      some "senior_applying_for_junior" ∧
    (calculate_skill_gaps cv_skills job_requirements).gap_score = 0 ∧
    (calculate_skill_gaps cv_skills job_requirements).overqualification_risk = "high" ∧
    ∀ overall_score : ℚ,
      determine_hiring_recommendation overall_score
        (calculate_skill_gaps cv_skills job_requirements) = "consider_with_caution" := by
  have hgap : (calculate_skill_gaps cv_skills job_requirements).experience_gap =
      some "senior_applying_for_junior" := by
    rw [experience_gap_eq, hcv, hjob]
    simp
  have hscore : (calculate_skill_gaps cv_skills job_requirements).gap_score = 0 := by
    rw [gap_score_eq, hgap, hmissing]
    rw [if_neg (show ¬ (some "senior_applying_for_junior" = some "junior_applying_for_senior")
          by decide),
        if_pos rfl]
    by_cases h : 0 < (flattenSkills job_requirements.required_technical_skills).card
    · rw [if_pos h]
      norm_num
    · rw [if_neg h]
  have hrisk : (calculate_skill_gaps cv_skills job_requirements).overqualification_risk =
      "high" := by
    rw [overqualification_risk_eq, hgap]
    simp
  refine ⟨hgap, hscore, hrisk, fun overall_score => ?_⟩
  unfold determine_hiring_recommendation
  rw [hrisk]
  simp

/-- C5 scenario input: a senior CV offering Django. -/
def cvSenior : CvSkills := ⟨[("frameworks", ["Django"])], [], "senior", "5+"⟩

/-- C5 scenario input: a junior job with no recognized required
skills, so nothing is missing. -/
def jobJunior : JobRequirements := ⟨[], [], "1-3", "junior"⟩

/-- C5 witness: the spec's scenario (senior Django CV against a junior
requirement, zero missing skills), with the numeric score 95. -/
theorem senior_for_junior_forces_caution_witness :
    (calculate_skill_gaps cvSenior jobJunior).experience_gap =
      some "senior_applying_for_junior" ∧
    (calculate_skill_gaps cvSenior jobJunior).gap_score = 0 ∧
    (calculate_skill_gaps cvSenior jobJunior).overqualification_risk = "high" ∧
    determine_hiring_recommendation 95 (calculate_skill_gaps cvSenior jobJunior) =
      "consider_with_caution" := by
  have h := senior_for_junior_forces_caution cvSenior jobJunior rfl rfl (by decide)
  exact ⟨h.1, h.2.1, h.2.2.1, h.2.2.2 95⟩

/-- C6 claim-side job experience level, stated from the claim: the
job-requirement extractor's keyword rules checked in the order
junior → senior → mid-level, first match winning. -/
def claimC6_job_level (text : String) : String :=
  if ["junior", "entry", "graduate", "intern", "1-3", "0-2"].any
       (fun w => containsSub (toLowerStr text) w) then "junior"
  else if ["senior", "lead", "architect", "principal", "5+", "6+", "7+", "8+", "9+", "10+"].any
       (fun w => containsSub (toLowerStr text) w) then "senior"
  else if ["mid", "intermediate", "3-5", "4-6"].any
       (fun w => containsSub (toLowerStr text) w) then "mid-level"
  else "unknown"

/-- C6 counterexample: on the text "junior senior" the job-requirement
extractor answers "senior" (it checks its senior rule first), while
the claimed junior-first order would answer "junior". -/
theorem requirement_level_order_counterexample :
    (fallback_requirement_extraction "junior senior").experience_level = "senior" ∧
    claimC6_job_level "junior senior" = "junior" ∧
    (fallback_requirement_extraction "junior senior").experience_level ≠
      claimC6_job_level "junior senior" := by
  refine ⟨?_, ?_, ?_⟩ <;> decide

/-- C6 amended: the CV skill extractor checks its level rules in the
order junior → senior → mid-level, but the job-requirement extractor
checks senior → junior → mid-level; in both, the first matching rule
wins and the level defaults to "unknown". -/
theorem experience_level_first_match_orders (text : String) :
    (fallback_skill_extraction text).experience_level =
      (if ["junior", "entry", "graduate", "intern"].any
            (fun w => containsSub (toLowerStr text) w) then "junior"
       else if ["senior", "lead", "architect", "principal"].any
            (fun w => containsSub (toLowerStr text) w) then "senior"
       else if ["mid", "intermediate", "3", "4", "5"].any
            (fun w => containsSub (toLowerStr text) w) then "mid-level"
       else "unknown") ∧
    (fallback_requirement_extraction text).experience_level =
      (if ["senior", "lead", "architect", "principal", "5+", "6+", "7+", "8+", "9+", "10+"].any
            (fun w => containsSub (toLowerStr text) w) then "senior"
       else if ["junior", "entry", "graduate", "intern", "1-3", "0-2"].any
            (fun w => containsSub (toLowerStr text) w) then "junior"
       else if ["mid", "intermediate", "3-5", "4-6"].any
            (fun w => containsSub (toLowerStr text) w) then "mid-level"
       else "unknown") := by
  constructor
  · unfold fallback_skill_extraction
    dsimp only
    split_ifs <;> rfl
  · unfold fallback_requirement_extraction
    dsimp only
    split_ifs <;> rfl
